import Mathlib

/-!
Shallow embedding of `src/integration/rust_compiler.rs` from the
Rust_Visual_Editor repository, together with theorems settling the
frozen claims about its specification.

The embedding models:
* the data model (`CompilationResult`, `CompilationError`, `ErrorLevel`);
* a structural JSON value type standing for `serde_json::Value`, with the
  accessors (`get`, `as_str`, `as_u64`, `as_array`) the source uses;
* the diagnostic parser `parse_cargo_output` (and its delegate
  `parse_rustc_output`), taking the per-line result of the external JSON
  parse (`none` = the line was not valid JSON) plus the raw stdout/stderr
  strings;
* the control flow of `check_code`, `check_code_with_deps` and
  `quick_check` as functions of an environment recording which
  filesystem/process effects succeed, returning the final result together
  with whether the sandbox-removal call was reached;
* the strings the checks write into the sandbox (wrapped `main.rs`
  content, generated `Cargo.toml`);
* the serde-derived JSON wire encoding of `CompilationResult`.
-/

namespace RustCompilerModel

/-- Structural JSON values, standing for `serde_json::Value`.  Numbers are
modelled as integers, which covers every numeric field the parser reads
(`line_start`, `column_start` via `as_u64`). -/
inductive Json where
  | null : Json
  | bool : Bool → Json
  | num : Int → Json
  | str : String → Json
  | arr : List Json → Json
  | obj : List (String × Json) → Json

/-- First-match association lookup over the fields of a JSON object,
as `serde_json::Value::get` on a map whose keys are unique. -/
def lookupField : List (String × Json) → String → Option Json
  | [], _ => none
  | (k, v) :: rest, key => if k = key then some v else lookupField rest key

/-- Embeds `Value::get(key)`: field lookup, `none` on non-objects. -/
def Json.get (j : Json) (key : String) : Option Json :=
  match j with
  | .obj fields => lookupField fields key
  | _ => none

/-- Embeds `Value::as_str`. -/
def Json.as_str : Json → Option String
  | .str s => some s
  | _ => none

/-- Embeds `Value::as_u64`: succeeds on integers representable as `u64`. -/
def Json.as_u64 : Json → Option Nat
  | .num n => if 0 ≤ n ∧ n < 2 ^ 64 then some n.toNat else none
  | _ => none

/-- Embeds `Value::as_array`. -/
def Json.as_array : Json → Option (List Json)
  | .arr a => some a
  | _ => none

/-- The `ErrorLevel` enum from `rust_compiler.rs` (serde `rename_all = "lowercase"`). -/
inductive ErrorLevel where
  | Error : ErrorLevel
  | Warning : ErrorLevel
  | Note : ErrorLevel
  | Help : ErrorLevel
deriving DecidableEq, Repr

/-- The `CompilationError` struct from `rust_compiler.rs`: an individual diagnostic. -/
structure CompilationError where
  level : ErrorLevel
  message : String
  code : Option String
  line : Option Nat
  column : Option Nat
  file : Option String
  suggestion : Option String
deriving DecidableEq, Repr

/-- The `CompilationResult` struct from `rust_compiler.rs`. -/
structure CompilationResult where
  success : Bool
  errors : List CompilationError
  warnings : List CompilationError
  stdout : String
  stderr : String
deriving DecidableEq, Repr

/-- The severity-string table from `parse_cargo_output` (lines 198–204 of
`rust_compiler.rs`): the four known severities map to their levels, any
other string to `Error`. -/
def levelFromStr (s : String) : ErrorLevel :=
  match s with
  | "error" => .Error
  | "warning" => .Warning
  | "note" => .Note
  | "help" => .Help
  | _ => .Error

/-- The per-line diagnostic extraction inside `parse_cargo_output`
(lines 189–233 of `rust_compiler.rs`): given the parsed JSON value of one
stdout line, produce the `CompilationError` the loop body builds, or
`none` when the line lacks a `message` payload or a rendered string.  The
severity string defaults to `"error"` when absent (`unwrap_or("error")`,
line 195). -/
def extractError (msg : Json) : Option CompilationError :=
  match msg.get "message" with
  | none => none
  | some message =>
    match (message.get "rendered").bind Json.as_str with
    | none => none
    | some rendered =>
      let levelStr := (((message.get "level").bind Json.as_str)).getD "error"
      let level : ErrorLevel := levelFromStr levelStr
      let firstSpan : Option Json :=
        (((message.get "spans").bind Json.as_array)).bind List.head?
      some
        { level := level
          message := rendered
          code := (((message.get "code").bind (fun c => c.get "code"))).bind Json.as_str
          line := (firstSpan.bind (fun span => span.get "line_start")).bind Json.as_u64
          column := (firstSpan.bind (fun span => span.get "column_start")).bind Json.as_u64
          file := (firstSpan.bind (fun span => span.get "file_name")).bind Json.as_str
          suggestion := none }

/-- One step of the accumulation loop in `parse_cargo_output`: `Error`
levels are pushed onto the error vector, `Warning` onto the warning
vector, everything else (`Note`/`Help`) is dropped; lines that were not
valid JSON (`none`) or yielded no diagnostic leave both vectors
unchanged. -/
def parseStep (acc : List CompilationError × List CompilationError)
    (line : Option Json) : List CompilationError × List CompilationError :=
  match line with
  | none => acc
  | some msg =>
    match extractError msg with
    | none => acc
    | some err =>
      match err.level with
      | .Error => (acc.1 ++ [err], acc.2)
      | .Warning => (acc.1, acc.2 ++ [err])
      | _ => acc

/-- Embeds `RustCompiler::parse_cargo_output` (lines 176–252).  `lines` is the
list of per-line external JSON-parse results of the captured stdout
(`none` = `serde_json::from_str` failed on that line); `stdout_str` and
`stderr_str` are the lossily-decoded raw streams, passed through into the
result. -/
def parse_cargo_output (lines : List (Option Json))
    (stdout_str stderr_str : String) : CompilationResult :=
  let acc := lines.foldl parseStep ([], [])
  { success := acc.1.isEmpty
    errors := acc.1
    warnings := acc.2
    stdout := stdout_str
    stderr := stderr_str }

/-- Embeds `RustCompiler::parse_rustc_output` (lines 255–262): delegates to
`parse_cargo_output` unchanged. -/
def parse_rustc_output (lines : List (Option Json))
    (stdout_str stderr_str : String) : CompilationResult :=
  parse_cargo_output lines stdout_str stderr_str

/-- Whether the snippet contains the entry-point marker, as
`code.contains("fn main")` in `check_code` (line 78): a substring test. -/
def containsFnMain (code : String) : Bool :=
  decide ("fn main".toList <:+: code.toList)

/-- The `main.rs` content `check_code` writes (lines 77–84): the snippet
wrapped in a synthetic `fn main` when the marker is absent, the snippet
itself otherwise. -/
def check_code_main_rs (code : String) : String :=
  if !(containsFnMain code) then
    "fn main() \x7b\n" ++ code ++ "\n\x7d"
  else
    code

/-- The `main.rs` content `check_code_with_deps` writes (line 132): the
caller's snippet verbatim. -/
def check_code_with_deps_main_rs (code : String) : String :=
  code

/-- The fixed manifest header both project-mode checks start from
(lines 64–70 and 113–121). -/
def cargo_toml_header : String :=
  "[package]\nname = \"blockly_check\"\nversion = \"0.1.0\"\nedition = \"2021\"\n\n[dependencies]\n"

/-- The `Cargo.toml` content `check_code_with_deps` writes (lines
112–127): the fixed header followed by one `name = \"version\"` line per
dependency pair, appended by the loop in order with no escaping. -/
def check_code_with_deps_cargo_toml (deps : List (String × String)) : String :=
  deps.foldl
    (fun acc nv => acc ++ (nv.1 ++ " = \"" ++ nv.2 ++ "\"\n"))
    cargo_toml_header

/-- The captured output of a successfully spawned external tool: the
per-line JSON-parse results of its stdout plus both raw streams. -/
structure SpawnOutput where
  lines : List (Option Json)
  stdout_str : String
  stderr_str : String

/-- Effect environment for one `check_code` call, recording which
fallible steps succeed: the four `?`-propagated filesystem operations and
the process spawn (`none` = `Command::output()` returned `Err`). -/
structure CheckCodeEnv where
  create_project_dir_ok : Bool
  write_cargo_toml_ok : Bool
  create_src_dir_ok : Bool
  write_main_ok : Bool
  spawn : Option SpawnOutput

/-- Control flow of `RustCompiler::check_code` (lines 58–100) over an
effect environment.  Returns the call's outcome (`none` = an early
`?`-return with an error) paired with whether the
`fs::remove_dir_all(&project_dir)` cleanup call (line 97) was reached.
Mirrors the source exactly: each failing `?` returns before the cleanup
line, and `parse_cargo_output`, whose body always returns `Ok`, cannot
fail. -/
def check_code_model (env : CheckCodeEnv) : Option CompilationResult × Bool :=
  if !env.create_project_dir_ok then (none, false)
  else if !env.write_cargo_toml_ok then (none, false)
  else if !env.create_src_dir_ok then (none, false)
  else if !env.write_main_ok then (none, false)
  else
    match env.spawn with
    | none => (none, false)
    | some out =>
        (some (parse_cargo_output out.lines out.stdout_str out.stderr_str), true)

/-- Control flow of `RustCompiler::check_code_with_deps` (lines 103–148):
identical shape to `check_code` (manifest built with dependencies, no
wrapping), with the cleanup call at line 145. -/
def check_code_with_deps_model (env : CheckCodeEnv) :
    Option CompilationResult × Bool :=
  if !env.create_project_dir_ok then (none, false)
  else if !env.write_cargo_toml_ok then (none, false)
  else if !env.create_src_dir_ok then (none, false)
  else if !env.write_main_ok then (none, false)
  else
    match env.spawn with
    | none => (none, false)
    | some out =>
        (some (parse_cargo_output out.lines out.stdout_str out.stderr_str), true)

/-- Effect environment for one `quick_check` call: the temp-file write
and the `rustc` spawn. -/
structure QuickCheckEnv where
  write_file_ok : Bool
  spawn : Option SpawnOutput

/-- Control flow of `RustCompiler::quick_check` (lines 152–173): write
the temp file, spawn `rustc`, parse via `parse_rustc_output`, and reach
the `fs::remove_file(&temp_file)` cleanup (line 170) only after parsing
succeeds. -/
def quick_check_model (env : QuickCheckEnv) : Option CompilationResult × Bool :=
  if !env.write_file_ok then (none, false)
  else
    match env.spawn with
    | none => (none, false)
    | some out =>
        (some (parse_rustc_output out.lines out.stdout_str out.stderr_str), true)

/-- Embeds `Value::as_bool`. -/
def Json.as_bool : Json → Option Bool
  | .bool b => some b
  | _ => none

/-- serde encoding of `ErrorLevel` under `rename_all = "lowercase"`: each
unit variant becomes its lowercased name as a JSON string. -/
def ErrorLevel.toJson : ErrorLevel → Json
  | .Error => .str "error"
  | .Warning => .str "warning"
  | .Note => .str "note"
  | .Help => .str "help"

/-- serde decoding of `ErrorLevel`. -/
def ErrorLevel.fromJson : Json → Option ErrorLevel
  | .str "error" => some .Error
  | .str "warning" => some .Warning
  | .str "note" => some .Note
  | .str "help" => some .Help
  | _ => none

/-- serde encoding of `Option<String>`: `None` → `null`. -/
def optStrToJson : Option String → Json
  | none => .null
  | some s => .str s

/-- serde decoding of `Option<String>`. -/
def optStrFromJson : Json → Option (Option String)
  | .null => some none
  | .str s => some (some s)
  | _ => none

/-- serde encoding of `Option<usize>`; `usize` is modelled as `Nat`. -/
def optNatToJson : Option Nat → Json
  | none => .null
  | some n => .num n

/-- serde decoding of `Option<usize>` (`usize` modelled as `Nat`, so every
non-negative integer is accepted). -/
def optNatFromJson : Json → Option (Option Nat)
  | .null => some none
  | .num n => if 0 ≤ n then some (some n.toNat) else none
  | _ => none

/-- serde-derived JSON encoding of `CompilationError`: an object with the
struct's fields in declaration order. -/
def CompilationError.toJson (e : CompilationError) : Json :=
  .obj
    [ ("level", e.level.toJson)
    , ("message", .str e.message)
    , ("code", optStrToJson e.code)
    , ("line", optNatToJson e.line)
    , ("column", optNatToJson e.column)
    , ("file", optStrToJson e.file)
    , ("suggestion", optStrToJson e.suggestion) ]

/-- serde-derived JSON decoding of `CompilationError` (behaviour of the
derived deserializer on objects carrying every field). -/
def CompilationError.fromJson (j : Json) : Option CompilationError := do
  let level ← (j.get "level").bind ErrorLevel.fromJson
  let message ← (j.get "message").bind Json.as_str
  let code ← (j.get "code").bind optStrFromJson
  let line ← (j.get "line").bind optNatFromJson
  let column ← (j.get "column").bind optNatFromJson
  let file ← (j.get "file").bind optStrFromJson
  let suggestion ← (j.get "suggestion").bind optStrFromJson
  pure ⟨level, message, code, line, column, file, suggestion⟩

/-- serde-derived JSON encoding of `CompilationResult`. -/
def CompilationResult.toJson (r : CompilationResult) : Json :=
  .obj
    [ ("success", .bool r.success)
    , ("errors", .arr (r.errors.map CompilationError.toJson))
    , ("warnings", .arr (r.warnings.map CompilationError.toJson))
    , ("stdout", .str r.stdout)
    , ("stderr", .str r.stderr) ]

/-- serde sequence decoding: each element of a JSON array decoded as a
`CompilationError`, failing when any element fails. -/
def decodeErrorList : List Json → Option (List CompilationError)
  | [] => some []
  | j :: rest => do
    let e ← CompilationError.fromJson j
    let es ← decodeErrorList rest
    pure (e :: es)

/-- serde-derived JSON decoding of `CompilationResult`. -/
def CompilationResult.fromJson (j : Json) : Option CompilationResult := do
  let success ← (j.get "success").bind Json.as_bool
  let errorsArr ← (j.get "errors").bind Json.as_array
  let errors ← decodeErrorList errorsArr
  let warningsArr ← (j.get "warnings").bind Json.as_array
  let warnings ← decodeErrorList warningsArr
  let stdout ← (j.get "stdout").bind Json.as_str
  let stderr ← (j.get "stderr").bind Json.as_str
  pure ⟨success, errors, warnings, stdout, stderr⟩

/-- The diagnostics extracted from a stdout line list, in emission
order: declarative characterization of what the parser loop visits. -/
def diagsOf (lines : List (Option Json)) : List CompilationError :=
  lines.filterMap (fun l => l.bind extractError)

/-- Declarative characterization of the error list the parser builds:
the `Error`-level extracted diagnostics, in order. -/
def errsOf (lines : List (Option Json)) : List CompilationError :=
  (diagsOf lines).filter (fun d => decide (d.level = ErrorLevel.Error))

/-- Declarative characterization of the warning list the parser builds:
the `Warning`-level extracted diagnostics, in order. -/
def warnsOf (lines : List (Option Json)) : List CompilationError :=
  (diagsOf lines).filter (fun d => decide (d.level = ErrorLevel.Warning))

/-- A sample cargo diagnostic line: an error-level message with a
rendered string, a code and two spans. -/
def sampleErrorLine : Json :=
  .obj
    [ ("message", .obj
        [ ("rendered", .str "error: expected expression")
        , ("level", .str "error")
        , ("code", .obj [("code", .str "E0001")])
        , ("spans", .arr
            [ .obj
                [ ("line_start", .num 3)
                , ("column_start", .num 5)
                , ("file_name", .str "src/main.rs") ]
            , .obj [("line_start", .num 9)] ]) ]) ]

/-- A sample note-level diagnostic line with only a rendered string. -/
def sampleNoteLine : Json :=
  .obj [("message", .obj [("rendered", .str "note: here"), ("level", .str "note")])]

/-- A sample diagnostic line carrying an unknown severity string. -/
def sampleUnknownLevelLine : Json :=
  .obj
    [ ("message", .obj
        [ ("rendered", .str "internal compiler error: oops")
        , ("level", .str "ice") ]) ]

/-- A line that yields no diagnostic (not valid JSON, no `message`
payload, or no rendered string) leaves the accumulator unchanged. -/
theorem parseStep_skip (acc : List CompilationError × List CompilationError)
    (l : Option Json) (h : l.bind extractError = none) : parseStep acc l = acc := by
  cases l with
  | none => rfl
  | some msg =>
    simp only [Option.some_bind] at h
    simp [parseStep, h]

/-- The parser loop, started from any accumulator, appends exactly the
`Error`-level extracted diagnostics to the first component and the
`Warning`-level ones to the second, in emission order. -/
theorem foldl_parseStep_spec (lines : List (Option Json)) :
    ∀ acc : List CompilationError × List CompilationError,
      lines.foldl parseStep acc = (acc.1 ++ errsOf lines, acc.2 ++ warnsOf lines) := by
  induction lines with
  | nil => intro acc; simp [errsOf, warnsOf, diagsOf]
  | cons l rest ih =>
    intro acc
    rw [List.foldl_cons, ih]
    cases l with
    | none => simp [parseStep, errsOf, warnsOf, diagsOf]
    | some msg =>
      cases h : extractError msg with
      | none => simp [parseStep, h, errsOf, warnsOf, diagsOf]
      | some err =>
        cases hl : err.level <;>
          simp [parseStep, h, hl, errsOf, warnsOf, diagsOf, List.filter_cons]

/-- Record-level characterization of `parse_cargo_output` in terms of
the declarative error and warning lists. -/
theorem parse_cargo_output_spec (lines : List (Option Json)) (out err : String) :
    parse_cargo_output lines out err =
      { success := (errsOf lines).isEmpty
        errors := errsOf lines
        warnings := warnsOf lines
        stdout := out
        stderr := err } := by
  simp [parse_cargo_output, foldl_parseStep_spec]

/-- C1: every `CompilationResult` produced by `parse_cargo_output` — and
hence every result returned by `check_code`, `check_code_with_deps` and
`quick_check` — satisfies `success = errors.isEmpty`: success holds
exactly when the error list is empty, whatever the warnings. -/
theorem c1_success_iff_errors_empty :
    (∀ lines out err, (parse_cargo_output lines out err).success =
        (parse_cargo_output lines out err).errors.isEmpty)
    ∧ (∀ env r, (check_code_model env).1 = some r → r.success = r.errors.isEmpty)
    ∧ (∀ env r, (check_code_with_deps_model env).1 = some r →
        r.success = r.errors.isEmpty)
    ∧ (∀ env r, (quick_check_model env).1 = some r → r.success = r.errors.isEmpty) := by
  have hp : ∀ lines out err, (parse_cargo_output lines out err).success =
      (parse_cargo_output lines out err).errors.isEmpty := fun _ _ _ => rfl
  refine ⟨hp, ?_, ?_, ?_⟩
  · intro env r h
    unfold check_code_model at h
    repeat' split at h
    all_goals simp_all
    exact h ▸ hp _ _ _
  · intro env r h
    unfold check_code_with_deps_model at h
    repeat' split at h
    all_goals simp_all
    exact h ▸ hp _ _ _
  · intro env r h
    unfold quick_check_model at h
    repeat' split at h
    all_goals simp_all
    exact h ▸ hp _ _ _

/-- Witness for C1 at a concrete environment: a `check_code` run whose
tool emits nothing returns a result with `success = errors.isEmpty`. -/
theorem c1_witness :
    (parse_cargo_output [] "" "").success = (parse_cargo_output [] "" "").errors.isEmpty :=
  c1_success_iff_errors_empty.2.1 ⟨true, true, true, true, some ⟨[], "", ""⟩⟩
    (parse_cargo_output [] "" "") rfl

/-- C2 counterexample: when the external tool fails to spawn
(`Command::output()` returns `Err`), `check_code` exits through the `?`
operator before line 97, so the function returns without ever reaching
the sandbox-removal call — the claim that the sandbox is removed on every
exit path is false. -/
theorem c2_counterexample :
    (check_code_model ⟨true, true, true, true, none⟩).1 = none
    ∧ (check_code_model ⟨true, true, true, true, none⟩).2 = false :=
  ⟨rfl, rfl⟩

/-- C2 amended: in each of `check_code`, `check_code_with_deps` and
`quick_check` the sandbox-removal call is reached exactly on the path
that returns a `CompilationResult`; every early `?`-error exit (failed
directory creation, failed file write, or failed spawn) returns without
removing the per-call sandbox. -/
theorem c2_cleanup_iff_result :
    ∀ (env : CheckCodeEnv) (qenv : QuickCheckEnv),
      ((check_code_model env).2 = true ↔ ((check_code_model env).1).isSome = true)
      ∧ ((check_code_with_deps_model env).2 = true ↔
          ((check_code_with_deps_model env).1).isSome = true)
      ∧ ((quick_check_model qenv).2 = true ↔
          ((quick_check_model qenv).1).isSome = true) := by
  intro env qenv
  rcases env with ⟨a, b, c, d, sp⟩
  rcases qenv with ⟨w, qsp⟩
  refine ⟨?_, ?_, ?_⟩
  · cases a <;> cases b <;> cases c <;> cases d <;> cases sp <;>
      simp [check_code_model]
  · cases a <;> cases b <;> cases c <;> cases d <;> cases sp <;>
      simp [check_code_with_deps_model]
  · cases w <;> cases qsp <;> simp [quick_check_model]

/-- C10: `parse_rustc_output` and `parse_cargo_output` are literally the
same parsing function — on every input the two return equal results. -/
theorem c10_parse_rustc_eq_parse_cargo :
    ∀ lines out err, parse_rustc_output lines out err = parse_cargo_output lines out err :=
  fun _ _ _ => rfl

/-- C3: `check_code` wraps the snippet in a synthetic `fn main` entry
point exactly when the snippet lacks the `"fn main"` marker, writes it
unchanged when the marker is present, and `check_code_with_deps` writes
the caller's snippet verbatim for every input. -/
theorem c3_wrapping :
    (∀ code, containsFnMain code = false →
      check_code_main_rs code = "fn main() \x7b\n" ++ code ++ "\n\x7d")
    ∧ (∀ code, containsFnMain code = true → check_code_main_rs code = code)
    ∧ (∀ code, check_code_with_deps_main_rs code = code) := by
  refine ⟨?_, ?_, fun _ => rfl⟩ <;> intro code h <;> simp [check_code_main_rs, h]

/-- Witness for C3: a snippet without the marker is wrapped, a snippet
with the marker is written unchanged. -/
theorem c3_witness :
    check_code_main_rs "let x = 1;" = "fn main() \x7b\nlet x = 1;\n\x7d"
    ∧ check_code_main_rs "fn main() \x7b\x7d" = "fn main() \x7b\x7d" :=
  ⟨c3_wrapping.1 "let x = 1;" (by decide), c3_wrapping.2.1 "fn main() \x7b\x7d" (by decide)⟩

/-- C5: parsing is per-line and fail-soft — a line yielding no diagnostic
(invalid JSON, missing `message` payload, or missing rendered string) is
skipped without affecting the rest of the parse, and an input with zero
diagnostic-yielding lines gives empty errors and warnings. -/
theorem c5_fail_soft :
    (∀ pre post l out e, l.bind extractError = none →
      parse_cargo_output (pre ++ l :: post) out e = parse_cargo_output (pre ++ post) out e)
    ∧ (∀ lines out e, (∀ l ∈ lines, l.bind extractError = none) →
      (parse_cargo_output lines out e).errors = []
      ∧ (parse_cargo_output lines out e).warnings = []) := by
  constructor
  · intro pre post l out e h
    unfold parse_cargo_output
    rw [List.foldl_append, List.foldl_append, List.foldl_cons, parseStep_skip _ _ h]
  · intro lines out e h
    have hd : diagsOf lines = [] := List.filterMap_eq_nil_iff.mpr h
    simp [parse_cargo_output_spec, errsOf, warnsOf, hd]

/-- Witness for C5: one well-formed diagnostic line plus one garbage
(non-JSON) line parses to the same result as the well-formed line alone,
and yields exactly one diagnostic. -/
theorem c5_witness :
    parse_cargo_output [some sampleErrorLine, none] "" ""
      = parse_cargo_output [some sampleErrorLine] "" ""
    ∧ (parse_cargo_output [some sampleErrorLine, none] "" "").errors.length = 1
    ∧ (parse_cargo_output [some sampleErrorLine, none] "" "").warnings.length = 0 :=
  ⟨c5_fail_soft.1 [some sampleErrorLine] [] none "" "" rfl, by decide, by decide⟩

/-- C6: the error list of a parse is exactly the `Error`-level extracted
diagnostics and the warning list exactly the `Warning`-level ones, so a
diagnostic whose level is `Note` or `Help` is appended to neither
list. -/
theorem c6_note_help_discarded :
    ∀ lines out e,
      (parse_cargo_output lines out e).errors = errsOf lines
      ∧ (parse_cargo_output lines out e).warnings = warnsOf lines
      ∧ (∀ d, d ∈ diagsOf lines →
          (d.level = ErrorLevel.Note ∨ d.level = ErrorLevel.Help) →
          d ∉ (parse_cargo_output lines out e).errors
          ∧ d ∉ (parse_cargo_output lines out e).warnings) := by
  intro lines out e
  refine ⟨by simp [parse_cargo_output_spec], by simp [parse_cargo_output_spec], ?_⟩
  intro d _ hlvl
  constructor
  · intro hmem
    simp [parse_cargo_output_spec, errsOf, List.mem_filter] at hmem
    rcases hlvl with h | h <;> simp [h] at hmem
  · intro hmem
    simp [parse_cargo_output_spec, warnsOf, List.mem_filter] at hmem
    rcases hlvl with h | h <;> simp [h] at hmem

/-- Witness for C6: the note-level diagnostic extracted from
`sampleNoteLine` lands in neither the errors nor the warnings of a parse
of that line. -/
theorem c6_witness :
    (⟨ErrorLevel.Note, "note: here", none, none, none, none, none⟩ : CompilationError)
        ∉ (parse_cargo_output [some sampleNoteLine] "" "").errors
    ∧ (⟨ErrorLevel.Note, "note: here", none, none, none, none, none⟩ : CompilationError)
        ∉ (parse_cargo_output [some sampleNoteLine] "" "").warnings :=
  (c6_note_help_discarded [some sampleNoteLine] "" "").2.2
    ⟨ErrorLevel.Note, "note: here", none, none, none, none, none⟩
    (by decide) (Or.inl rfl)

/-- Strings: a fold that appends images of list elements, started from
any seed, is the seed followed by the joined images. -/
theorem foldl_append_join {α : Type} (f : α → String) (l : List α) :
    ∀ init : String, l.foldl (fun acc nv => acc ++ f nv) init
      = init ++ String.join (l.map f) := by
  induction l with
  | nil => intro init; simp [String.join, String.append_empty]
  | cons hd tl ih =>
    intro init
    rw [List.foldl_cons, ih (init ++ f hd), List.map_cons]
    have hjoin : String.join (f hd :: tl.map f) = f hd ++ String.join (tl.map f) := by
      simp only [String.join, List.foldl_cons]
      have h0 : ∀ (m : List String) (s : String),
          m.foldl (fun r t => r ++ t) s = s ++ m.foldl (fun r t => r ++ t) "" := by
        intro m
        induction m with
        | nil => intro s; simp [String.append_empty]
        | cons x xs ihm =>
          intro s
          rw [List.foldl_cons, ihm (s ++ x), List.foldl_cons, ihm ("" ++ x),
            String.empty_append, String.append_assoc]
      rw [h0 (tl.map f) ("" ++ f hd), String.empty_append]
    rw [hjoin, String.append_assoc]

/-- C8: the manifest `check_code_with_deps` writes is the fixed package
header followed, for each dependency pair in order, by the exact line
`name = "version"` with both strings interpolated verbatim — no
validation or escaping of any name or version. -/
theorem c8_manifest_verbatim :
    ∀ deps : List (String × String),
      check_code_with_deps_cargo_toml deps
        = cargo_toml_header
          ++ String.join (deps.map fun nv => nv.1 ++ " = \"" ++ nv.2 ++ "\"\n") := by
  intro deps
  exact foldl_append_join (fun nv => nv.1 ++ " = \"" ++ nv.2 ++ "\"\n") deps cargo_toml_header

/-- C4: every extracted diagnostic's level is the severity string mapped
through the fixed table (`"error"`→`Error`, `"warning"`→`Warning`,
`"note"`→`Note`, `"help"`→`Help`), with any other or absent severity
defaulting (via `unwrap_or("error")`) to `Error`; an `Error`-level
diagnostic is counted in the errors list and forces `success = false`. -/
theorem c4_severity_table :
    (∀ msg err, extractError msg = some err →
      ∃ message, msg.get "message" = some message
        ∧ err.level = levelFromStr ((((message.get "level").bind Json.as_str)).getD "error"))
    ∧ levelFromStr "error" = ErrorLevel.Error
    ∧ levelFromStr "warning" = ErrorLevel.Warning
    ∧ levelFromStr "note" = ErrorLevel.Note
    ∧ levelFromStr "help" = ErrorLevel.Help
    ∧ (∀ s, s ≠ "error" → s ≠ "warning" → s ≠ "note" → s ≠ "help" →
        levelFromStr s = ErrorLevel.Error)
    ∧ (∀ msg err out e, extractError msg = some err → err.level = ErrorLevel.Error →
        (parse_cargo_output [some msg] out e).errors = [err]
        ∧ (parse_cargo_output [some msg] out e).success = false) := by
  refine ⟨?_, rfl, rfl, rfl, rfl, ?_, ?_⟩
  · intro msg err h
    unfold extractError at h
    split at h
    next => exact Option.noConfusion h
    next message hm =>
      split at h
      next => exact Option.noConfusion h
      next rendered hr =>
        simp only [Option.some.injEq] at h
        exact ⟨message, hm, by rw [← h]⟩
  · intro s h1 h2 h3 h4
    unfold levelFromStr
    split <;> simp_all
  · intro msg err out e h hl
    have hd : diagsOf [some msg] = [err] := by simp [diagsOf, h]
    have he : errsOf [some msg] = [err] := by
      simp [errsOf, hd, List.filter_cons, hl]
    constructor
    · simp [parse_cargo_output_spec, he]
    · simp [parse_cargo_output_spec, he]

/-- Witness for C4: a diagnostic line with the unknown severity `"ice"`
extracts to an `Error`-level diagnostic which lands in the errors list
and makes the parse unsuccessful. -/
theorem c4_witness :
    (∃ message, sampleUnknownLevelLine.get "message" = some message
      ∧ (⟨ErrorLevel.Error, "internal compiler error: oops",
            none, none, none, none, none⟩ : CompilationError).level
          = levelFromStr ((((message.get "level").bind Json.as_str)).getD "error"))
    ∧ (parse_cargo_output [some sampleUnknownLevelLine] "" "").errors
        = [⟨ErrorLevel.Error, "internal compiler error: oops", none, none, none, none, none⟩]
    ∧ (parse_cargo_output [some sampleUnknownLevelLine] "" "").success = false :=
  ⟨c4_severity_table.1 sampleUnknownLevelLine
      ⟨ErrorLevel.Error, "internal compiler error: oops", none, none, none, none, none⟩ rfl,
   (c4_severity_table.2.2.2.2.2.2 sampleUnknownLevelLine
      ⟨ErrorLevel.Error, "internal compiler error: oops", none, none, none, none, none⟩
      "" "" rfl rfl).1,
   (c4_severity_table.2.2.2.2.2.2 sampleUnknownLevelLine
      ⟨ErrorLevel.Error, "internal compiler error: oops", none, none, none, none, none⟩
      "" "" rfl rfl).2⟩

/-- C7: a diagnostic's line, column and file come only from the first
element of the `spans` array (`line_start`, `column_start`, `file_name`);
when `spans` is absent, not an array, or empty, all three are `none`, and
the elements past the first never influence them. -/
theorem c7_first_span_only :
    ∀ msg err, extractError msg = some err →
      ∃ message, msg.get "message" = some message
        ∧ (∀ s rest, (message.get "spans").bind Json.as_array = some (s :: rest) →
            err.line = (s.get "line_start").bind Json.as_u64
            ∧ err.column = (s.get "column_start").bind Json.as_u64
            ∧ err.file = (s.get "file_name").bind Json.as_str)
        ∧ ((message.get "spans").bind Json.as_array = none →
            err.line = none ∧ err.column = none ∧ err.file = none)
        ∧ ((message.get "spans").bind Json.as_array = some [] →
            err.line = none ∧ err.column = none ∧ err.file = none) := by
  intro msg err h
  unfold extractError at h
  split at h
  next => exact Option.noConfusion h
  next message hm =>
    split at h
    next => exact Option.noConfusion h
    next rendered hr =>
      simp only [Option.some.injEq] at h
      subst h
      refine ⟨message, hm, ?_, ?_, ?_⟩
      · intro s rest hsp
        refine ⟨?_, ?_, ?_⟩ <;> simp [hsp]
      · intro hsp
        refine ⟨?_, ?_, ?_⟩ <;> simp [hsp]
      · intro hsp
        refine ⟨?_, ?_, ?_⟩ <;> simp [hsp]

/-- Witness for C7 at `sampleErrorLine`: the extracted diagnostic's
position comes from the first of its two spans. -/
theorem c7_witness :
    ∃ message, sampleErrorLine.get "message" = some message
      ∧ (∀ s rest, (message.get "spans").bind Json.as_array = some (s :: rest) →
          (⟨ErrorLevel.Error, "error: expected expression", some "E0001",
              some 3, some 5, some "src/main.rs", none⟩ : CompilationError).line
            = (s.get "line_start").bind Json.as_u64
          ∧ (⟨ErrorLevel.Error, "error: expected expression", some "E0001",
              some 3, some 5, some "src/main.rs", none⟩ : CompilationError).column
            = (s.get "column_start").bind Json.as_u64
          ∧ (⟨ErrorLevel.Error, "error: expected expression", some "E0001",
              some 3, some 5, some "src/main.rs", none⟩ : CompilationError).file
            = (s.get "file_name").bind Json.as_str)
      ∧ ((message.get "spans").bind Json.as_array = none →
          (⟨ErrorLevel.Error, "error: expected expression", some "E0001",
              some 3, some 5, some "src/main.rs", none⟩ : CompilationError).line = none
          ∧ (⟨ErrorLevel.Error, "error: expected expression", some "E0001",
              some 3, some 5, some "src/main.rs", none⟩ : CompilationError).column = none
          ∧ (⟨ErrorLevel.Error, "error: expected expression", some "E0001",
              some 3, some 5, some "src/main.rs", none⟩ : CompilationError).file = none)
      ∧ ((message.get "spans").bind Json.as_array = some [] →
          (⟨ErrorLevel.Error, "error: expected expression", some "E0001",
              some 3, some 5, some "src/main.rs", none⟩ : CompilationError).line = none
          ∧ (⟨ErrorLevel.Error, "error: expected expression", some "E0001",
              some 3, some 5, some "src/main.rs", none⟩ : CompilationError).column = none
          ∧ (⟨ErrorLevel.Error, "error: expected expression", some "E0001",
              some 3, some 5, some "src/main.rs", none⟩ : CompilationError).file = none) :=
  c7_first_span_only sampleErrorLine
    ⟨ErrorLevel.Error, "error: expected expression", some "E0001",
      some 3, some 5, some "src/main.rs", none⟩ rfl

/-- Round-trip of the level encoding. -/
theorem errorLevel_roundtrip (l : ErrorLevel) : ErrorLevel.fromJson l.toJson = some l := by
  cases l <;> rfl

/-- Round-trip of optional strings through the wire encoding. -/
theorem optStr_roundtrip (o : Option String) : optStrFromJson (optStrToJson o) = some o := by
  cases o <;> rfl

/-- Round-trip of optional naturals through the wire encoding. -/
theorem optNat_roundtrip (o : Option Nat) : optNatFromJson (optNatToJson o) = some o := by
  cases o with
  | none => rfl
  | some n => simp [optNatToJson, optNatFromJson]

/-- Round-trip of a single diagnostic through the wire encoding. -/
theorem compilationError_roundtrip (e : CompilationError) :
    CompilationError.fromJson e.toJson = some e := by
  obtain ⟨lvl, m, c, ln, col, f, sg⟩ := e
  simp [CompilationError.toJson, CompilationError.fromJson, Json.get, lookupField,
    errorLevel_roundtrip, optStr_roundtrip, optNat_roundtrip, Json.as_str]

/-- Round-trip of a diagnostic list through the wire encoding. -/
theorem errorList_roundtrip (l : List CompilationError) :
    decodeErrorList (l.map CompilationError.toJson) = some l := by
  induction l with
  | nil => rfl
  | cons hd tl ih => simp [decodeErrorList, compilationError_roundtrip, ih]

/-- C9: every `CompilationResult` — including all nested
`CompilationError`s and `ErrorLevel`s — serialized to the JSON wire
format and deserialized back is field-for-field equal to the
original. -/
theorem c9_wire_roundtrip :
    ∀ r : CompilationResult, CompilationResult.fromJson r.toJson = some r := by
  intro r
  obtain ⟨s, errs, warns, so, se⟩ := r
  simp [CompilationResult.toJson, CompilationResult.fromJson, Json.get, lookupField,
    Json.as_bool, Json.as_array, Json.as_str, errorList_roundtrip]

end RustCompilerModel
